import Mathlib

/-!
Verification of the StackNN controller/CLI core against its specification.

The development shallowly embeds the Python sources:
  * `models/base.py`  — `AbstractController`: construction, `_init_struct`,
    `init_controller`, `init_stack`, `get_and_reset_reg_loss`;
  * `run.py`          — `get_object_from_arg` and the `__main__` pipeline.

Python scalars are modelled as `ℚ`, Python ints as `ℤ`, tensors as nested
lists.  Exceptions are modelled with an explicit error component: each
initialisation step returns the state as mutated so far together with an
optional raised error, mirroring Python's in-place attribute mutation where
an exception leaves earlier assignments in place.  Parts of the repository
that are imported by the sources but whose code is not available
(`structs.base.Struct`, `InterfaceRegTracker`, the concrete buffer and
network initialisers) are modelled from the specification and marked as such.
-/

set_option autoImplicit false

namespace StackNN

/-! ### Operations and the regularization tracker -/

/-- The `Operation` enum imported from `structs` in `models/base.py`:
the two structure operations that carry regularization weights. -/
inductive Operation where
  | push
  | pop
deriving DecidableEq, Repr

/-- Modelled from the spec: `InterfaceRegTracker` (spec §3 RegLossAccumulator,
§4.2 Regularization Tracker), whose source is not in `src/`: a running scalar
sum per operation kind (push, pop). -/
structure InterfaceRegTracker where
  pushLoss : ℚ
  popLoss : ℚ
deriving DecidableEq, Repr

/-- Modelled from the spec: a freshly constructed tracker holds zero
accumulated penalty for both operation kinds. -/
def InterfaceRegTracker.new : InterfaceRegTracker := ⟨0, 0⟩

/-- Modelled from the spec: `reset()` zeroes all accumulated penalties. -/
def InterfaceRegTracker.reset (_t : InterfaceRegTracker) : InterfaceRegTracker := ⟨0, 0⟩

/-- Modelled from the spec: `add(operation_kind, value)` adds a scalar
contribution to the accumulator of that operation kind. -/
def InterfaceRegTracker.add (t : InterfaceRegTracker) (op : Operation) (v : ℚ) :
    InterfaceRegTracker :=
  match op with
  | .push => { t with pushLoss := t.pushLoss + v }
  | .pop => { t with popLoss := t.popLoss + v }

/-- Modelled from the spec: `total()` returns the sum of all accumulated
contributions since the last reset. -/
def InterfaceRegTracker.total (t : InterfaceRegTracker) : ℚ :=
  t.pushLoss + t.popLoss

/-! ### Python classes and errors -/

/-- The classes visible in `run.py`'s globals and in `models/base.py`:
task classes, the `dict` builtin, controller classes, and structure
classes, plus `int` as an example of a class unrelated to any expected
base. -/
inductive PyClass where
  | taskBase
  | cfgTask
  | reverseTask
  | dictCls
  | abstractController
  | bufferedController
  | vanillaController
  | structBase
  | stackCls
  | queueCls
  | intCls
deriving DecidableEq, Repr

/-- Python's `issubclass` on the classes of `PyClass`: reflexive, plus the
declared inheritance edges of the repository (tasks derive from `Task`,
controllers from `AbstractController`, structures from `Struct`). -/
def pyIssubclass (a b : PyClass) : Bool :=
  a = b ||
    match a, b with
    | .cfgTask, .taskBase => true
    | .reverseTask, .taskBase => true
    | .bufferedController, .abstractController => true
    | .vanillaController, .abstractController => true
    | .stackCls, .structBase => true
    | .queueCls, .structBase => true
    | _, _ => false

/-- The rendering of a class used when Python interpolates it into an
error message (`str(cls)` / `"%s"`). -/
def pyName : PyClass → String
  | .taskBase => "Task"
  | .cfgTask => "CFGTask"
  | .reverseTask => "ReverseTask"
  | .dictCls => "dict"
  | .abstractController => "AbstractController"
  | .bufferedController => "BufferedController"
  | .vanillaController => "VanillaController"
  | .structBase => "Struct"
  | .stackCls => "Stack"
  | .queueCls => "Queue"
  | .intCls => "int"

/-- The Python exception classes raised by the modelled code paths. -/
inductive PyError where
  | valueError (msg : String)
  | typeError (msg : String)
  | runtimeError (msg : String)
deriving DecidableEq, Repr

/-! ### Tensors -/

/-- A batched vector: one row of `readSize` rationals per batch element. -/
abbrev Mat : Type := List (List ℚ)

/-- A batch of input sequences (`xs`): dimensions batch × time × read size. -/
abbrev Xs : Type := List (List (List ℚ))

/-- `torch.zeros([b, r])`: a `b × r` tensor of zeros.  Torch raises a
`RuntimeError` when a requested dimension is negative. -/
def torchZeros (b r : ℤ) : Except PyError Mat :=
  if b < 0 ∨ r < 0 then
    .error (.runtimeError "Trying to create tensor with negative dimension")
  else
    .ok (List.replicate b.toNat (List.replicate r.toNat (0 : ℚ)))

/-! ### The neural data structure -/

/-- The state of a constructed structure instance, as far as
`models/base.py` manipulates it: its sizes, whether the controller's
tracker has been attached (`set_reg_tracker` — the tracker object itself
lives in the controller and is shared by reference), and the recorded
regularization weights (`set_reg_weight`). -/
structure StructState where
  batchSize : ℤ
  readSize : ℤ
  trackerAttached : Bool
  pushWeight : ℚ
  popWeight : ℚ
deriving DecidableEq, Repr

/-- Modelled from the spec: the constructor `self._struct_type(batch_size,
self._read_size)` of a `Struct` subclass, whose source is not in `src/`.
Spec §4.1: `initialize(batch_size, vector_size)` "Fails if vector_size ≤ 0 or
batch_size ≤ 0"; on success the structure starts with no tracker attached and
zero regularization weights. -/
def structNew (_t : PyClass) (b r : ℤ) : Except PyError StructState :=
  if b ≤ 0 ∨ r ≤ 0 then
    .error (.runtimeError "struct sizes must be positive")
  else
    .ok ⟨b, r, false, 0, 0⟩

/-- `struct.set_reg_tracker(tracker)`: records that the controller's tracker
is attached to this structure instance. -/
def StructState.set_reg_tracker (s : StructState) : StructState :=
  { s with trackerAttached := true }

/-- `struct.set_reg_weight(operation, weight)`: records the regularization
coefficient for that operation kind. -/
def StructState.set_reg_weight (s : StructState) (op : Operation) (w : ℚ) : StructState :=
  match op with
  | .push => { s with pushWeight := w }
  | .pop => { s with popWeight := w }

/-! ### The controller -/

/-- The attribute state of an `AbstractController` (`models/base.py`):
the configured structure type, read size and regularization weights, the
single tracker created in `__init__`, and the per-batch attributes
(`_read`, `_struct`, the input/output buffers, the network state). -/
structure ControllerState where
  structType : PyClass
  readSize : ℤ
  pushRegWeight : ℚ
  popRegWeight : ℚ
  regTracker : InterfaceRegTracker
  read : Option Mat
  struct : Option StructState
  bufferIn : Option Xs
  bufferOut : List Mat
  networkBatch : Option ℤ
deriving DecidableEq, Repr

/-- `AbstractController.__init__(read_size, struct_type, push_reg_weight=0.,
pop_reg_weight=0.)`: stores the configuration, sets `_struct`, `_read` and
the network state to `None`, and creates the one `InterfaceRegTracker()`.
The Python defaults for the two weights are `0.`; they are passed explicitly
here. -/
def mkController (read_size : ℤ) (struct_type : PyClass)
    (push_reg_weight pop_reg_weight : ℚ) : ControllerState :=
  { structType := struct_type
    readSize := read_size
    pushRegWeight := push_reg_weight
    popRegWeight := pop_reg_weight
    regTracker := InterfaceRegTracker.new
    read := none
    struct := none
    bufferIn := none
    bufferOut := []
    networkBatch := none }

/-- The observable actions performed during controller initialisation, in
program order. -/
inductive InitEvent where
  | structInit (batchSize readSize : ℤ)
  | trackerAttach
  | regWeightSet (op : Operation) (w : ℚ)
  | bufferInit
  | networkInit
deriving DecidableEq, Repr

/-- The outcome of an initialisation step: the controller state as mutated
so far (a raised exception leaves earlier attribute assignments in place),
the trace of performed actions, and the raised error, if any. -/
structure InitResult where
  state : ControllerState
  trace : List InitEvent
  error : Option PyError
deriving DecidableEq, Repr

/-- `AbstractController._init_struct(batch_size)` (`models/base.py`):
raises `ValueError` when `struct_type` is not a `Struct` subclass; otherwise
sets `_read` to `torch.zeros([batch_size, read_size])`, constructs the
structure, attaches the tracker and sets the push and pop weights. -/
def init_struct (c : ControllerState) (batch_size : ℤ) : InitResult :=
  if ¬ pyIssubclass c.structType PyClass.structBase then
    ⟨c, [], some (.valueError (pyName c.structType ++ " is not a Struct"))⟩
  else
    match torchZeros batch_size c.readSize with
    | .error e => ⟨c, [], some e⟩
    | .ok z =>
      let c1 := { c with read := some z }
      match structNew c.structType batch_size c.readSize with
      | .error e => ⟨c1, [], some e⟩
      | .ok st =>
        let st := st.set_reg_tracker
        let st := st.set_reg_weight Operation.push c.pushRegWeight
        let st := st.set_reg_weight Operation.pop c.popRegWeight
        ⟨{ c1 with struct := some st },
         [.structInit batch_size c.readSize, .trackerAttach,
          .regWeightSet Operation.push c.pushRegWeight,
          .regWeightSet Operation.pop c.popRegWeight],
         none⟩

/-- Modelled from the spec: `_init_buffer(batch_size, xs)` is abstract in
`models/base.py` and its concrete overrides are not in `src/`.  Spec §4.4(b):
input-buffer population from the input sequence, output-buffer reset to
empty. -/
def init_buffer (c : ControllerState) (_batch_size : ℤ) (xs : Xs) : InitResult :=
  ⟨{ c with bufferIn := some xs, bufferOut := [] }, [.bufferInit], none⟩

/-- `AbstractController._init_network(batch_size)` delegates to
`self._network.init_network(batch_size)`; the network sources are not in
`src/`.  Modelled from the spec: §4.3 `initialize_state(batch_size)`
resets/creates the recurrent hidden state for the new batch. -/
def init_network (c : ControllerState) (batch_size : ℤ) : InitResult :=
  ⟨{ c with networkBatch := some batch_size }, [.networkInit], none⟩

/-- `AbstractController.init_controller(batch_size, xs)` (`models/base.py`):
`self._init_struct(batch_size); self._init_buffer(batch_size, xs);
self._init_network(batch_size)`, each call propagating a raised exception. -/
def init_controller (c : ControllerState) (batch_size : ℤ) (xs : Xs) : InitResult :=
  let r1 := init_struct c batch_size
  match r1.error with
  | some _ => r1
  | none =>
    let r2 := init_buffer r1.state batch_size xs
    match r2.error with
    | some _ => { r2 with trace := r1.trace ++ r2.trace }
    | none =>
      let r3 := init_network r2.state batch_size
      { r3 with trace := r1.trace ++ r2.trace ++ r3.trace }

/-- `AbstractController.init_stack(batch_size, **kwargs)` (`models/base.py`,
compatibility shim): forwards to `init_controller`. -/
def init_stack (c : ControllerState) (batch_size : ℤ) (xs : Xs) : InitResult :=
  init_controller c batch_size xs

/-- `AbstractController.get_and_reset_reg_loss(self)` (`models/base.py`):
`return 0.` — the returned value and the (unchanged) controller state. -/
def get_and_reset_reg_loss (c : ControllerState) : ℚ × ControllerState :=
  (0, c)

/-! ### `run.py`: registry lookup and the CLI pipeline -/

/-- A Python object as far as `run.py` handles one: a class, a dict
instance (a configuration, mapping names to values), a string, or an
int. -/
inductive PyObject where
  | cls (c : PyClass)
  | dictInstance (d : List (String × PyObject))
  | strVal (s : String)
  | intVal (n : ℤ)

/-- Whether a Python object is a class (a valid first argument to
`issubclass`). -/
def PyObject.isCls : PyObject → Bool
  | .cls _ => true
  | _ => false

/-- A Python dict with string keys, e.g. a configuration or a module's
`globals()`. -/
abbrev PyDict : Type := List (String × PyObject)

/-- Python dict subscript read: the value stored at `k`, if any. -/
def dictGet : PyDict → String → Option PyObject
  | [], _ => none
  | (k2, v) :: rest, k => if k2 = k then some v else dictGet rest k

/-- Python dict subscript assignment `d[k] = v`: replaces the value at an
existing key, otherwise appends the new entry. -/
def dictSet : PyDict → String → PyObject → PyDict
  | [], k, v => [(k, v)]
  | (k2, v2) :: rest, k, v =>
    if k2 = k then (k, v) :: rest else (k2, v2) :: dictSet rest k v

/-- `get_object_from_arg(arg, superclass, default=None)` (`run.py`):
`None` returns the default; otherwise the name is looked up in `globals()`
(`ValueError` on miss) and checked with `issubclass(obj, superclass)`
(`ValueError` when a class fails the check; Python's `issubclass` itself
raises `TypeError` when the looked-up object is not a class).  The Python
default for `default` is `None`; it is passed explicitly here. -/
def get_object_from_arg (g : PyDict) (arg : Option String) (superclass : PyClass)
    (default : Option PyObject) : Except PyError (Option PyObject) :=
  match arg with
  | none => .ok default
  | some a =>
    match dictGet g a with
    | none => .error (.valueError ("Invalid argument " ++ a))
    | some (.cls c) =>
      if pyIssubclass c superclass then .ok (some (.cls c))
      else .error (.valueError (a ++ " is not a " ++ pyName superclass))
    | some _ => .error (.typeError "issubclass() arg 1 must be a class")

/-- The parsed command line (`get_args` in `run.py`): the positional task
name and the four optional flags. -/
structure Args where
  task : String
  config : Option String
  loadpath : Option String
  savepath : Option String
  controller : Option String

/-- Lines 58–64 of `run.py`: starting from the resolved configuration dict,
store the resolved controller under `"model_type"` when one was supplied,
then `"load_path"` and `"save_path"` when those paths were supplied. -/
def buildConfig (d : PyDict) (controller : Option PyObject)
    (loadpath savepath : Option String) : PyDict :=
  let d1 := match controller with
    | some obj => dictSet d "model_type" obj
    | none => d
  let d2 := match loadpath with
    | some p => dictSet d1 "load_path" (.strVal p)
    | none => d1
  match savepath with
  | some p => dictSet d2 "save_path" (.strVal p)
  | none => d2

/-- The `__main__` block of `run.py`: resolve the task, the configuration
(defaulting to the empty dict) and the controller override, apply the
overrides to the configuration, and hand (task, configuration) to
`task(**config).run_experiment()` — the handed-over pair is the result. -/
def runMain (g : PyDict) (args : Args) : Except PyError (PyClass × PyDict) :=
  match get_object_from_arg g (some args.task) PyClass.taskBase none with
  | .error e => .error e
  | .ok taskObj =>
    match get_object_from_arg g args.config PyClass.dictCls (some (.dictInstance [])) with
    | .error e => .error e
    | .ok configObj =>
      match get_object_from_arg g args.controller PyClass.abstractController none with
      | .error e => .error e
      | .ok controllerObj =>
        match configObj with
        | some (.dictInstance d) =>
          let d2 := buildConfig d controllerObj args.loadpath args.savepath
          match taskObj with
          | some (.cls t) => .ok (t, d2)
          | _ => .error (.typeError "object is not callable")
        | _ => .error (.typeError "object does not support item assignment")

/-- The globals of `run.py` after its star imports, restricted to the names
the claims exercise: the task and controller classes and the configuration
dicts from `tasks/configs.py` (dict instances, e.g. `dyck_config`). -/
def runGlobals : PyDict :=
  [("CFGTask", .cls .cfgTask),
   ("ReverseTask", .cls .reverseTask),
   ("BufferedController", .cls .bufferedController),
   ("VanillaController", .cls .vanillaController),
   ("Stack", .cls .stackCls),
   ("Queue", .cls .queueCls),
   ("dyck_config", .dictInstance
      [("sample_depth", .intVal 5)]),
   ("reverse_config", .dictInstance
      [("sample_depth", .intVal 12)])]

/-! ### Concrete instances used by witnesses and counterexamples -/

/-- A freshly constructed controller: read size 2, `Stack` structure type,
both regularization weights at their `0.` defaults. -/
def demoController : ControllerState := mkController 2 PyClass.stackCls 0 0

/-- A controller mid-training: the structure has reported one unit of push
regularization into the shared tracker (spec §4.2 `add`), as happens on
every `apply` during the previous batch. -/
def demoAccController : ControllerState :=
  { mkController 2 PyClass.stackCls 1 1 with
      regTracker := InterfaceRegTracker.new.add Operation.push 1 }

/-- A controller misconfigured with `int` (not a `Struct` subclass) as its
structure type. -/
def demoBadController : ControllerState := mkController 2 PyClass.intCls 0 0

/-- A small input batch: 1 sequence of 2 time steps of read size 2. -/
def demoXs : Xs := [[[1, 0], [0, 1]]]

/-- A parsed command line: `run.py CFGTask --loadpath m.pt --savepath s.pt
--controller BufferedController` (no `--config`). -/
def demoArgs : Args :=
  { task := "CFGTask"
    config := none
    loadpath := some "m.pt"
    savepath := some "s.pt"
    controller := some "BufferedController" }

/-! ## Helper lemmas -/

/-- `_init_struct` on a structure type that is not a `Struct` subclass:
`ValueError`, no attribute mutated, no action performed. -/
theorem init_struct_not_struct (c : ControllerState) (b : ℤ)
    (hs : pyIssubclass c.structType PyClass.structBase = false) :
    init_struct c b
      = ⟨c, [], some (.valueError (pyName c.structType ++ " is not a Struct"))⟩ := by
  unfold init_struct
  simp [hs]

/-- `_init_struct` with a negative dimension: `torch.zeros` raises before
any attribute is assigned. -/
theorem init_struct_neg_dim (c : ControllerState) (b : ℤ)
    (hs : pyIssubclass c.structType PyClass.structBase = true)
    (h : b < 0 ∨ c.readSize < 0) :
    init_struct c b
      = ⟨c, [], some (.runtimeError "Trying to create tensor with negative dimension")⟩ := by
  unfold init_struct torchZeros
  simp [hs, h]

/-- `_init_struct` with nonpositive sizes that pass `torch.zeros`: the
structure constructor fails after `_read` has been assigned. -/
theorem init_struct_nonpos (c : ControllerState) (b : ℤ)
    (hs : pyIssubclass c.structType PyClass.structBase = true)
    (h1 : ¬(b < 0 ∨ c.readSize < 0)) (h2 : b ≤ 0 ∨ c.readSize ≤ 0) :
    init_struct c b
      = ⟨{ c with
            read := some (List.replicate b.toNat (List.replicate c.readSize.toNat (0 : ℚ))) },
         [], some (.runtimeError "struct sizes must be positive")⟩ := by
  unfold init_struct torchZeros structNew
  simp [hs, h1, h2]

/-- `_init_struct` on a `Struct` subclass with positive sizes: `_read` is
the zero tensor, the structure is built with the tracker attached and both
weights recorded, and the four actions happen in program order. -/
theorem init_struct_ok (c : ControllerState) (b : ℤ)
    (hs : pyIssubclass c.structType PyClass.structBase = true)
    (hb : 0 < b) (hr : 0 < c.readSize) :
    init_struct c b
      = ⟨{ c with
            read := some (List.replicate b.toNat (List.replicate c.readSize.toNat (0 : ℚ))),
            struct := some ⟨b, c.readSize, true, c.pushRegWeight, c.popRegWeight⟩ },
         [.structInit b c.readSize, .trackerAttach,
          .regWeightSet Operation.push c.pushRegWeight,
          .regWeightSet Operation.pop c.popRegWeight],
         none⟩ := by
  have h1 : ¬(b < 0 ∨ c.readSize < 0) := by omega
  have h2 : ¬(b ≤ 0 ∨ c.readSize ≤ 0) := by omega
  unfold init_struct torchZeros structNew
  simp [hs, h1, h2, StructState.set_reg_tracker, StructState.set_reg_weight]

/-- `init_controller` propagates an exception raised by `_init_struct`
without running the buffer or network initialisers. -/
theorem init_controller_eq_of_err (c : ControllerState) (b : ℤ) (xs : Xs)
    (s' : ControllerState) (tr : List InitEvent) (e : PyError)
    (h : init_struct c b = ⟨s', tr, some e⟩) :
    init_controller c b xs = ⟨s', tr, some e⟩ := by
  unfold init_controller
  rw [h]

/-- `init_controller` after a successful `_init_struct`: the buffer and
network initialisers run in order on the mutated state. -/
theorem init_controller_eq_of_ok (c : ControllerState) (b : ℤ) (xs : Xs)
    (s' : ControllerState) (tr : List InitEvent)
    (h : init_struct c b = ⟨s', tr, none⟩) :
    init_controller c b xs
      = ⟨{ s' with bufferIn := some xs, bufferOut := [], networkBatch := some b },
         tr ++ [InitEvent.bufferInit] ++ [InitEvent.networkInit], none⟩ := by
  unfold init_controller init_buffer init_network
  rw [h]

/-- Python dict assignment followed by a read of the same key. -/
theorem dictGet_dictSet_self (d : PyDict) (k : String) (v : PyObject) :
    dictGet (dictSet d k v) k = some v := by
  induction d with
  | nil => simp [dictSet, dictGet]
  | cons kv rest ih =>
    obtain ⟨k2, v2⟩ := kv
    by_cases h : k2 = k
    · simp [dictSet, dictGet, h]
    · simp [dictSet, dictGet, h, ih]

/-- Python dict assignment does not disturb reads of other keys. -/
theorem dictGet_dictSet_ne (d : PyDict) (k k' : String) (v : PyObject)
    (h : k ≠ k') :
    dictGet (dictSet d k v) k' = dictGet d k' := by
  induction d with
  | nil => simp [dictSet, dictGet, h]
  | cons kv rest ih =>
    obtain ⟨k2, v2⟩ := kv
    by_cases h2 : k2 = k
    · subst h2
      simp [dictSet, dictGet, h]
    · simp [dictSet, dictGet, h2, ih]

/-! ## Claims -/

/-- C1 (counterexample): on a controller whose tracker has accumulated a
total of 1, `get_and_reset_reg_loss` returns 0 — not the accumulated
total — and leaves the tracker untouched rather than resetting it. -/
theorem C1_counterexample :
    demoAccController.regTracker.total = 1 ∧
    (get_and_reset_reg_loss demoAccController).1 = 0 ∧
    (get_and_reset_reg_loss demoAccController).2.regTracker
      = demoAccController.regTracker ∧
    (0 : ℚ) ≠ 1 := by
  refine ⟨?_, rfl, rfl, by norm_num⟩
  norm_num [demoAccController, mkController, InterfaceRegTracker.new,
    InterfaceRegTracker.add, InterfaceRegTracker.total]

/-- C1 (amended): `AbstractController.get_and_reset_reg_loss` is a
compatibility stub: it returns the constant `0.` and leaves the whole
controller state, the regularization tracker included, unchanged; the
tracker-draining behaviour described by the spec is left to overriding
subclasses. -/
theorem C1_reg_loss_constant (c : ControllerState) :
    (get_and_reset_reg_loss c).1 = 0 ∧ (get_and_reset_reg_loss c).2 = c :=
  ⟨rfl, rfl⟩

/-- C2 (counterexample): starting from a controller whose tracker carries
an accumulated total of 1 from a previous batch, `init_controller`
succeeds, yet the tracker attached to the fresh structure still totals 1:
it is neither newly created nor zeroed. -/
theorem C2_counterexample :
    (init_controller demoAccController 2 demoXs).error = none ∧
    (init_controller demoAccController 2 demoXs).state.regTracker.total = 1 ∧
    InterfaceRegTracker.new.total = 0 ∧ (1 : ℚ) ≠ 0 := by
  have e := init_controller_eq_of_ok demoAccController 2 demoXs _ _
    (init_struct_ok demoAccController 2 (by decide) (by decide) (by decide))
  rw [e]
  refine ⟨rfl, ?_, ?_, by norm_num⟩
  · norm_num [demoAccController, mkController, InterfaceRegTracker.new,
      InterfaceRegTracker.add, InterfaceRegTracker.total]
  · norm_num [InterfaceRegTracker.new, InterfaceRegTracker.total]

/-- C2 (amended): `init_controller` attaches the controller's single
tracker — created once in `__init__` — to the newly created structure and
never resets it, so accumulated regularization state survives batch
initialisation. -/
theorem C2_tracker_reused (c : ControllerState) (b : ℤ) (xs : Xs) :
    (init_controller c b xs).state.regTracker = c.regTracker ∧
    ((init_controller c b xs).error = none →
      ∃ st, (init_controller c b xs).state.struct = some st ∧
        st.trackerAttached = true) := by
  cases hs : pyIssubclass c.structType PyClass.structBase with
  | false =>
    rw [init_controller_eq_of_err c b xs _ _ _ (init_struct_not_struct c b hs)]
    exact ⟨rfl, fun h => Option.noConfusion h⟩
  | true =>
    by_cases h1 : b < 0 ∨ c.readSize < 0
    · rw [init_controller_eq_of_err c b xs _ _ _ (init_struct_neg_dim c b hs h1)]
      exact ⟨rfl, fun h => Option.noConfusion h⟩
    · by_cases h2 : b ≤ 0 ∨ c.readSize ≤ 0
      · rw [init_controller_eq_of_err c b xs _ _ _ (init_struct_nonpos c b hs h1 h2)]
        exact ⟨rfl, fun h => Option.noConfusion h⟩
      · have hb : 0 < b := by omega
        have hr : 0 < c.readSize := by omega
        rw [init_controller_eq_of_ok c b xs _ _ (init_struct_ok c b hs hb hr)]
        exact ⟨rfl, fun _ => ⟨_, rfl, rfl⟩⟩

/-- C2 (witness): the amended statement evaluated on a concrete
accumulated controller at batch size 2. -/
theorem C2_witness :
    (init_controller demoAccController 2 demoXs).state.regTracker
      = demoAccController.regTracker ∧
    ∃ st, (init_controller demoAccController 2 demoXs).state.struct = some st ∧
      st.trackerAttached = true := by
  have h := C2_tracker_reused demoAccController 2 demoXs
  exact ⟨h.1, h.2 (by decide)⟩

/-- C3: a successful `init_controller` performs structure initialisation
(with the given batch size and the configured read size, then attaching the
tracker, then the push weight, then the pop weight), then buffer
initialisation, then network initialisation — exactly these steps, in this
order. -/
theorem C3_init_order (c : ControllerState) (b : ℤ) (xs : Xs)
    (h : (init_controller c b xs).error = none) :
    (init_controller c b xs).trace
      = [InitEvent.structInit b c.readSize, InitEvent.trackerAttach,
         InitEvent.regWeightSet Operation.push c.pushRegWeight,
         InitEvent.regWeightSet Operation.pop c.popRegWeight,
         InitEvent.bufferInit, InitEvent.networkInit] := by
  cases hs : pyIssubclass c.structType PyClass.structBase with
  | false =>
    rw [init_controller_eq_of_err c b xs _ _ _ (init_struct_not_struct c b hs)] at h
    exact Option.noConfusion h
  | true =>
    by_cases h1 : b < 0 ∨ c.readSize < 0
    · rw [init_controller_eq_of_err c b xs _ _ _ (init_struct_neg_dim c b hs h1)] at h
      exact Option.noConfusion h
    · by_cases h2 : b ≤ 0 ∨ c.readSize ≤ 0
      · rw [init_controller_eq_of_err c b xs _ _ _ (init_struct_nonpos c b hs h1 h2)] at h
        exact Option.noConfusion h
      · have hb : 0 < b := by omega
        have hr : 0 < c.readSize := by omega
        rw [init_controller_eq_of_ok c b xs _ _ (init_struct_ok c b hs hb hr)]
        rfl

/-- C3 (witness): the initialisation trace of a fresh stack controller at
batch size 1. -/
theorem C3_witness :
    (init_controller demoController 1 demoXs).trace
      = [InitEvent.structInit 1 2, InitEvent.trackerAttach,
         InitEvent.regWeightSet Operation.push 0,
         InitEvent.regWeightSet Operation.pop 0,
         InitEvent.bufferInit, InitEvent.networkInit] :=
  C3_init_order demoController 1 demoXs (by decide)

/-- C4: when the configured structure type is not a `Struct` subclass,
`init_controller` raises `ValueError` with no attribute mutated and no
action performed; when it is a `Struct` subclass, no `ValueError` is ever
raised. -/
theorem C4_struct_type_guard (c : ControllerState) (b : ℤ) (xs : Xs) :
    (pyIssubclass c.structType PyClass.structBase = false →
      (init_controller c b xs).error
          = some (.valueError (pyName c.structType ++ " is not a Struct")) ∧
      (init_controller c b xs).state = c ∧
      (init_controller c b xs).trace = []) ∧
    (pyIssubclass c.structType PyClass.structBase = true →
      ∀ m, (init_controller c b xs).error ≠ some (.valueError m)) := by
  constructor
  · intro hs
    rw [init_controller_eq_of_err c b xs _ _ _ (init_struct_not_struct c b hs)]
    exact ⟨rfl, rfl, rfl⟩
  · intro hs m
    by_cases h1 : b < 0 ∨ c.readSize < 0
    · rw [init_controller_eq_of_err c b xs _ _ _ (init_struct_neg_dim c b hs h1)]
      simp
    · by_cases h2 : b ≤ 0 ∨ c.readSize ≤ 0
      · rw [init_controller_eq_of_err c b xs _ _ _ (init_struct_nonpos c b hs h1 h2)]
        simp
      · have hb : 0 < b := by omega
        have hr : 0 < c.readSize := by omega
        rw [init_controller_eq_of_ok c b xs _ _ (init_struct_ok c b hs hb hr)]
        simp

/-- C4 (witness): the guard evaluated on a controller configured with
`int` (rejected, state untouched) and on one configured with `Stack`
(no `ValueError`). -/
theorem C4_witness :
    (init_controller demoBadController 1 demoXs).error
      = some (PyError.valueError "int is not a Struct") ∧
    (init_controller demoBadController 1 demoXs).state = demoBadController ∧
    (init_controller demoController 1 demoXs).error
      ≠ some (PyError.valueError "Stack is not a Struct") := by
  refine ⟨?_, ?_, ?_⟩
  · exact ((C4_struct_type_guard demoBadController 1 demoXs).1 (by decide)).1
  · exact ((C4_struct_type_guard demoBadController 1 demoXs).1 (by decide)).2.1
  · exact (C4_struct_type_guard demoController 1 demoXs).2 (by decide)
      "Stack is not a Struct"

/-- C5: immediately after a well-configured `init_controller` with batch
size B > 0 and read size R > 0, the controller's read vector is the B × R
all-zero tensor. -/
theorem C5_read_zeros (c : ControllerState) (b : ℤ) (xs : Xs)
    (hs : pyIssubclass c.structType PyClass.structBase = true)
    (hb : 0 < b) (hr : 0 < c.readSize) :
    (init_controller c b xs).state.read
      = some (List.replicate b.toNat (List.replicate c.readSize.toNat (0 : ℚ))) := by
  rw [init_controller_eq_of_ok c b xs _ _ (init_struct_ok c b hs hb hr)]

/-- C5 (witness): the read vector of a fresh stack controller with read
size 2 at batch size 2. -/
theorem C5_witness :
    (init_controller demoController 2 demoXs).state.read
      = some [[(0 : ℚ), 0], [0, 0]] := by
  have h := C5_read_zeros demoController 2 demoXs (by decide) (by decide) (by decide)
  simpa using h

/-- C6: structure initialisation, as invoked by `init_controller` on a
valid structure type, fails whenever the batch size or the read size is
nonpositive, and succeeds exactly when both are positive. -/
theorem C6_size_check (c : ControllerState) (b : ℤ)
    (hs : pyIssubclass c.structType PyClass.structBase = true) :
    ((b ≤ 0 ∨ c.readSize ≤ 0) → (init_struct c b).error ≠ none) ∧
    ((init_struct c b).error = none ↔ 0 < b ∧ 0 < c.readSize) := by
  constructor
  · intro h
    by_cases h1 : b < 0 ∨ c.readSize < 0
    · rw [init_struct_neg_dim c b hs h1]
      simp
    · rw [init_struct_nonpos c b hs h1 h]
      simp
  · constructor
    · intro h
      by_contra hcon
      have h2 : b ≤ 0 ∨ c.readSize ≤ 0 := by omega
      by_cases h1 : b < 0 ∨ c.readSize < 0
      · rw [init_struct_neg_dim c b hs h1] at h
        exact Option.noConfusion h
      · rw [init_struct_nonpos c b hs h1 h2] at h
        exact Option.noConfusion h
    · rintro ⟨hb, hr⟩
      rw [init_struct_ok c b hs hb hr]

/-- C6 (witness): structure initialisation of a stack controller fails at
batch size 0 and succeeds at batch size 2. -/
theorem C6_witness :
    (init_struct demoController 0).error ≠ none ∧
    (init_struct demoController 2).error = none := by
  constructor
  · exact (C6_size_check demoController 0 (by decide)).1 (Or.inl (by decide))
  · exact (C6_size_check demoController 2 (by decide)).2.mpr ⟨by decide, by decide⟩

/-- C7 (counterexample): `dyck_config` is present in the registry but is a
dict instance, not a class; `get_object_from_arg` then raises `TypeError`
from `issubclass`, not the `ValueError` the claim prescribes for an object
that is not a subclass of the expected base — so the documented invocation
`run.py CFGTask --config dyck_config` aborts with `TypeError`. -/
theorem C7_counterexample :
    dictGet runGlobals "dyck_config"
      = some (.dictInstance [("sample_depth", .intVal 5)]) ∧
    get_object_from_arg runGlobals (some "dyck_config") PyClass.dictCls none
      = .error (.typeError "issubclass() arg 1 must be a class") :=
  ⟨rfl, rfl⟩

/-- C7 (amended): for a non-None name, `get_object_from_arg` raises
`ValueError` exactly on a registry miss or when the looked-up object is a
class that is not a subclass of the expected base; when the looked-up
object is not a class at all it instead raises `TypeError` (from
`issubclass`); a class passing the check is returned. -/
theorem C7_lookup_behaviour (g : PyDict) (a : String) (sc : PyClass)
    (d : Option PyObject) :
    (dictGet g a = none →
      get_object_from_arg g (some a) sc d
        = .error (.valueError ("Invalid argument " ++ a))) ∧
    (∀ c, dictGet g a = some (.cls c) →
      (pyIssubclass c sc = true →
        get_object_from_arg g (some a) sc d = .ok (some (.cls c))) ∧
      (pyIssubclass c sc = false →
        get_object_from_arg g (some a) sc d
          = .error (.valueError (a ++ " is not a " ++ pyName sc)))) ∧
    (∀ o, dictGet g a = some o → o.isCls = false →
      get_object_from_arg g (some a) sc d
        = .error (.typeError "issubclass() arg 1 must be a class")) := by
  refine ⟨?_, ?_, ?_⟩
  · intro h
    simp only [get_object_from_arg, h]
  · intro c h
    constructor
    · intro hsub
      simp only [get_object_from_arg, h, hsub]
      rfl
    · intro hsub
      simp only [get_object_from_arg, h, hsub]
      rfl
  · intro o h ho
    simp only [get_object_from_arg, h]
    cases o with
    | cls c => exact Bool.noConfusion ho
    | dictInstance d2 => rfl
    | strVal s => rfl
    | intVal n => rfl

/-- C7 (witness): the amended behaviour evaluated on the `run.py` registry:
a missing name raises `ValueError`, a found controller class is returned,
a found class failing the subclass check raises `ValueError`, and a found
dict instance raises `TypeError`. -/
theorem C7_witness :
    get_object_from_arg runGlobals (some "NoSuchTask") PyClass.taskBase none
      = .error (.valueError "Invalid argument NoSuchTask") ∧
    get_object_from_arg runGlobals (some "BufferedController")
        PyClass.abstractController none
      = .ok (some (.cls PyClass.bufferedController)) ∧
    get_object_from_arg runGlobals (some "Stack") PyClass.taskBase none
      = .error (.valueError "Stack is not a Task") ∧
    get_object_from_arg runGlobals (some "dyck_config") PyClass.dictCls none
      = .error (.typeError "issubclass() arg 1 must be a class") := by
  refine ⟨?_, ?_, ?_, ?_⟩
  · exact (C7_lookup_behaviour runGlobals "NoSuchTask" PyClass.taskBase none).1 rfl
  · exact ((C7_lookup_behaviour runGlobals "BufferedController"
      PyClass.abstractController none).2.1 PyClass.bufferedController rfl).1 rfl
  · exact ((C7_lookup_behaviour runGlobals "Stack" PyClass.taskBase none).2.1
      PyClass.stackCls rfl).2 rfl
  · exact (C7_lookup_behaviour runGlobals "dyck_config" PyClass.dictCls none).2.2
      (.dictInstance [("sample_depth", .intVal 5)]) rfl rfl

/-- C8: once the task, the configuration and the controller override are
resolved, the CLI stores the controller class under `model_type`, the
supplied load and save paths under `load_path` and `save_path`, leaves
every other configuration entry unchanged, and hands exactly that
configuration to the task. -/
theorem C8_config_overrides (g : PyDict) (args : Args) (t : PyClass)
    (d : PyDict) (ctl : PyClass)
    (ht : get_object_from_arg g (some args.task) PyClass.taskBase none
            = .ok (some (.cls t)))
    (hc : get_object_from_arg g args.config PyClass.dictCls
            (some (.dictInstance [])) = .ok (some (.dictInstance d)))
    (hk : get_object_from_arg g args.controller PyClass.abstractController none
            = .ok (some (.cls ctl))) :
    runMain g args
      = .ok (t, buildConfig d (some (.cls ctl)) args.loadpath args.savepath) ∧
    dictGet (buildConfig d (some (.cls ctl)) args.loadpath args.savepath)
        "model_type" = some (.cls ctl) ∧
    (∀ p, args.loadpath = some p →
      dictGet (buildConfig d (some (.cls ctl)) args.loadpath args.savepath)
          "load_path" = some (.strVal p)) ∧
    (∀ p, args.savepath = some p →
      dictGet (buildConfig d (some (.cls ctl)) args.loadpath args.savepath)
          "save_path" = some (.strVal p)) ∧
    (∀ k, k ≠ "model_type" → k ≠ "load_path" → k ≠ "save_path" →
      dictGet (buildConfig d (some (.cls ctl)) args.loadpath args.savepath) k
        = dictGet d k) := by
  refine ⟨?_, ?_, ?_, ?_, ?_⟩
  · unfold runMain
    rw [ht, hc, hk]
  · unfold buildConfig
    cases args.loadpath with
    | none =>
      cases args.savepath with
      | none => exact dictGet_dictSet_self d "model_type" _
      | some p =>
        rw [dictGet_dictSet_ne _ _ _ _ (by decide)]
        exact dictGet_dictSet_self d "model_type" _
    | some p =>
      cases args.savepath with
      | none =>
        rw [dictGet_dictSet_ne _ _ _ _ (by decide)]
        exact dictGet_dictSet_self d "model_type" _
      | some q =>
        rw [dictGet_dictSet_ne _ _ _ _ (by decide),
          dictGet_dictSet_ne _ _ _ _ (by decide)]
        exact dictGet_dictSet_self d "model_type" _
  · intro p hp
    unfold buildConfig
    rw [hp]
    cases args.savepath with
    | none => exact dictGet_dictSet_self _ "load_path" _
    | some q =>
      rw [dictGet_dictSet_ne _ _ _ _ (by decide)]
      exact dictGet_dictSet_self _ "load_path" _
  · intro p hp
    unfold buildConfig
    rw [hp]
    cases args.loadpath <;> exact dictGet_dictSet_self _ "save_path" _
  · intro k h1 h2 h3
    unfold buildConfig
    cases args.loadpath with
    | none =>
      cases args.savepath with
      | none => exact dictGet_dictSet_ne _ _ _ _ (Ne.symm h1)
      | some q =>
        rw [dictGet_dictSet_ne _ _ _ _ (Ne.symm h3)]
        exact dictGet_dictSet_ne _ _ _ _ (Ne.symm h1)
    | some p =>
      cases args.savepath with
      | none =>
        rw [dictGet_dictSet_ne _ _ _ _ (Ne.symm h2)]
        exact dictGet_dictSet_ne _ _ _ _ (Ne.symm h1)
      | some q =>
        rw [dictGet_dictSet_ne _ _ _ _ (Ne.symm h3),
          dictGet_dictSet_ne _ _ _ _ (Ne.symm h2)]
        exact dictGet_dictSet_ne _ _ _ _ (Ne.symm h1)

/-- C8 (witness): `run.py CFGTask --loadpath m.pt --savepath s.pt
--controller BufferedController` hands `CFGTask` the configuration holding
exactly the controller override and the two paths. -/
theorem C8_witness :
    runMain runGlobals demoArgs
      = .ok (PyClass.cfgTask,
             [("model_type", PyObject.cls PyClass.bufferedController),
              ("load_path", PyObject.strVal "m.pt"),
              ("save_path", PyObject.strVal "s.pt")]) := by
  have h := C8_config_overrides runGlobals demoArgs PyClass.cfgTask []
    PyClass.bufferedController rfl rfl rfl
  exact h.1

/-- C9: `get_object_from_arg` with a `None` argument returns the default
for every registry, superclass and default — no lookup is performed and
nothing is raised; hence an omitted `--config` resolves to the empty
configuration dict and an omitted `--controller` resolves to `None`. -/
theorem C9_none_returns_default (g : PyDict) (sc : PyClass)
    (d : Option PyObject) :
    get_object_from_arg g none sc d = .ok d ∧
    get_object_from_arg g none PyClass.dictCls (some (.dictInstance []))
      = .ok (some (.dictInstance [])) ∧
    get_object_from_arg g none PyClass.abstractController none = .ok none :=
  ⟨rfl, rfl, rfl⟩

/-- C10: the compatibility method `init_stack` is behaviourally equivalent
to `init_controller`: on every controller state, batch size and input, it
yields the same mutated state, the same action trace and the same raised
error. -/
theorem C10_init_stack_equiv (c : ControllerState) (b : ℤ) (xs : Xs) :
    init_stack c b xs = init_controller c b xs ∧
    (init_stack c b xs).state = (init_controller c b xs).state ∧
    (init_stack c b xs).error = (init_controller c b xs).error :=
  ⟨rfl, rfl, rfl⟩

end StackNN
